import Mathlib

/-
Verification of the nyan token core (src/nyan/token.h).

The header fully defines the token category enumeration and the two
constexpr classification functions token_type_str and token_needs_payload;
those are translated below directly from the source.  The bodies of the
Token member functions and constructors live in token.cpp, which is not
part of the excerpted core: those definitions are modelled from the
specification and are marked as such in their doc comments.
-/

namespace nyan

/-- Available token types, translated from the enum class token_type in
src/nyan/token.h (29 variants, source order). -/
inductive token_type where
  | AS
  | AT
  | BANG
  | COLON
  | COMMA
  | DEDENT
  | DOT
  | ENDFILE
  | ENDLINE
  | ELLIPSIS
  | FLOAT
  | FROM
  | ID
  | IMPORT
  | INDENT
  | INF
  | INT
  | INVALID
  | LANGLE
  | LBRACE
  | LBRACKET
  | LPAREN
  | OPERATOR
  | PASS
  | RANGLE
  | RBRACE
  | RBRACKET
  | RPAREN
  | STRING
  deriving DecidableEq, Repr

/-- Known bracket types, translated from the enum class bracket_type in
src/nyan/token.h. -/
inductive bracket_type where
  | PAREN
  | ANGLE
  | BRACKET
  | BRACE
  deriving DecidableEq, Repr

/-- The single-quote character U+0027, used by several token labels in
token_type_str; built via its code point so the labels below can be
written without raw quote characters. -/
def squote : String := String.mk [Char.ofNat 39]

/-- The switch body of token_type_str (src/nyan/token.h lines 70 to 129):
each enumerated case returns its label.  The result is an Option so that
the trailing fallback return of the C++ function can be modelled
faithfully in token_type_str below. -/
def token_type_str_switch (type : token_type) : Option String :=
  match type with
  | token_type.AS => some "as"
  | token_type.AT => some "@"
  | token_type.BANG => some "!"
  | token_type.COLON => some "colon"
  | token_type.COMMA => some "comma"
  | token_type.DEDENT => some "dedentation"
  | token_type.DOT => some "dot"
  | token_type.ELLIPSIS => some "ellipsis"
  | token_type.ENDFILE => some "end of file"
  | token_type.ENDLINE => some "end of line"
  | token_type.FLOAT => some "float"
  | token_type.FROM => some "from"
  | token_type.ID => some "identifier"
  | token_type.IMPORT => some "import"
  | token_type.INDENT => some "indentation"
  | token_type.INF => some "inf"
  | token_type.INT => some "int"
  | token_type.INVALID => some "invalid"
  | token_type.LANGLE => some (squote ++ "<" ++ squote)
  | token_type.LBRACE => some (squote ++ "\x7b" ++ squote)
  | token_type.LBRACKET => some (squote ++ "[" ++ squote)
  | token_type.LPAREN => some (squote ++ "(" ++ squote)
  | token_type.OPERATOR => some "operator"
  | token_type.PASS => some "pass"
  | token_type.RANGLE => some (squote ++ ">" ++ squote)
  | token_type.RBRACE => some (squote ++ "\x7d" ++ squote)
  | token_type.RBRACKET => some (squote ++ "]" ++ squote)
  | token_type.RPAREN => some (squote ++ ")" ++ squote)
  | token_type.STRING => some "string"

/-- Get the string representation of a given token type, translated from
token_type_str in src/nyan/token.h: the switch over all cases, falling
back to the trailing return "unhandled token_type" when no case matched. -/
def token_type_str (type : token_type) : String :=
  (token_type_str_switch type).getD "unhandled token_type"

/-- Check if the given token type requires a payload storage, translated
from token_needs_payload in src/nyan/token.h: true for FLOAT, ID, INF,
INT, OPERATOR and STRING, false via the default case otherwise. -/
def token_needs_payload (type : token_type) : Bool :=
  match type with
  | token_type.FLOAT
  | token_type.ID
  | token_type.INF
  | token_type.INT
  | token_type.OPERATOR
  | token_type.STRING => true
  | _ => false

/-- Modelled from the spec: the Location type lives in src/nyan/location.h,
which is outside the excerpted core.  Per spec sections 1 and 3 it is
assumed to be a plain value record identifying a position: a reference to
the originating file (abstracted here as an identifier), the line number,
the column offset and the length of the lexeme. -/
structure Location where
  file : String
  line : Int
  line_offset : Int
  length : Int
  deriving DecidableEq, Repr, Inhabited

/-- Tokens are generated by the nyan lexer.  The members are translated
from the Token class in src/nyan/token.h: a Location, a token_type, and a
string payload member (empty when the token carries no payload, matching
the C++ member std::string value). -/
structure Token where
  location : Location
  type : token_type
  value : String
  deriving DecidableEq, Repr

/-- Modelled from the spec: the body of the no-payload Token constructor
is in token.cpp, which is missing from the excerpted core.  Per spec
section 4.2 it stores the location and category and produces a token with
empty payload; per the spec section 3 parenthetical, the original performs
no category check here - picking the matching constructor is the callers
responsibility. -/
def Token.mkNoPayload (file : String) (line : Int) (line_offset : Int)
    (length : Int) (type : token_type) : Token :=
  ⟨⟨file, line, line_offset, length⟩, type, ""⟩

/-- Modelled from the spec: the body of the with-payload Token constructor
is in token.cpp, which is missing from the excerpted core.  Per spec
section 4.2 it stores the location, category and the given payload text;
as with the no-payload path, the original performs no category check. -/
def Token.mkWithPayload (file : String) (line : Int) (line_offset : Int)
    (length : Int) (type : token_type) (value : String) : Token :=
  ⟨⟨file, line, line_offset, length⟩, type, value⟩

/-- Modelled from the spec: the body of the zero-argument Token
constructor declared at src/nyan/token.h line 163 is in token.cpp, which
is missing, and the spec lifecycle does not mention this path.  The string
payload member default-initializes to empty; the category such a token
carries is not specified by the excerpted core, so it is taken here as a
parameter ranging over all possibilities. -/
def Token.mkDefault (type : token_type) : Token :=
  ⟨default, type, ""⟩

/-- Modelled from the spec: the body of Token::exists is in token.cpp,
which is missing.  Per spec section 4.2, has_payload is true iff this
instance carries a payload; with the payload stored in a string member
that is empty exactly when absent, the token carries a payload iff that
member is non-empty. -/
def Token.exists (t : Token) : Bool :=
  !t.value.isEmpty

/-- Modelled from the spec: the body of Token::is_endmarker is in
token.cpp, which is missing.  Per spec section 4.2 it is true iff the
category is ENDLINE or ENDFILE. -/
def Token.is_endmarker (t : Token) : Bool :=
  match t.type with
  | token_type.ENDLINE | token_type.ENDFILE => true
  | _ => false

/-- Modelled from the spec: the body of Token::is_content is in token.cpp,
which is missing.  Per spec sections 4.2 and 9 the content subset contains
at minimum ID and STRING and its full extent is an external grammar
decision; the determinate minimum is modelled. -/
def Token.is_content (t : Token) : Bool :=
  match t.type with
  | token_type.ID | token_type.STRING => true
  | _ => false

/-- Modelled from the spec: the body of Token::get is in token.cpp, which
is missing.  Per spec section 4.2 it returns the stored payload and is
defined only when has_payload is true; calling it otherwise is a contract
violation, modelled as an error result. -/
def Token.get (t : Token) : Except String String :=
  if t.exists then Except.ok t.value
  else Except.error "token has no payload"

/-- Modelled from the spec: the body of Token::str is in token.cpp, which
is missing.  Per spec section 4.2 it renders a diagnostic form combining
the category name and, if present, the payload (exact formatting left to
the implementation). -/
def Token.str (t : Token) : String :=
  if t.exists then token_type_str t.type ++ "(" ++ t.value ++ ")"
  else token_type_str t.type

/-- Call semantics of the const member function Token::exists: invoked on
a receiver token, it yields its result together with the state of the
token after the call. -/
def Token.existsRun (t : Token) : Bool × Token :=
  (t.exists, t)

/-- Call semantics of the const member function Token::is_endmarker:
result together with the post-call state of the receiver. -/
def Token.is_endmarkerRun (t : Token) : Bool × Token :=
  (t.is_endmarker, t)

/-- Call semantics of the const member function Token::is_content: result
together with the post-call state of the receiver. -/
def Token.is_contentRun (t : Token) : Bool × Token :=
  (t.is_content, t)

/-- Call semantics of the const member function Token::get: result
together with the post-call state of the receiver. -/
def Token.getRun (t : Token) : Except String String × Token :=
  (t.get, t)

/-- Call semantics of the const member function Token::str: result
together with the post-call state of the receiver. -/
def Token.strRun (t : Token) : String × Token :=
  (t.str, t)

/-- Claim C1: token_needs_payload returns true if and only if the category
is one of FLOAT, ID, INF, INT, OPERATOR, STRING, and returns false for
every other enumerated category. -/
theorem claim_C1_requires_payload_iff :
    ∀ c : token_type, token_needs_payload c = true ↔
      (c = token_type.FLOAT ∨ c = token_type.ID ∨ c = token_type.INF ∨
       c = token_type.INT ∨ c = token_type.OPERATOR ∨ c = token_type.STRING) := by
  intro c
  cases c <;> decide

/-- Claim C2, counterexample: the claimed invariant fails on both
constructor paths.  A token built through the no-payload constructor with
the payload-requiring category STRING has has_payload false while
requires_payload of its category is true; and a token built through the
with-payload constructor for STRING with the empty payload text (as an
empty string literal would produce) also has has_payload false, since the
payload member is stored as a string that is empty exactly when absent. -/
theorem claim_C2_counterexample :
    Token.exists (Token.mkNoPayload "f" 1 0 6 token_type.STRING)
        ≠ token_needs_payload token_type.STRING ∧
      Token.exists (Token.mkWithPayload "f" 1 0 2 token_type.STRING "")
        ≠ token_needs_payload token_type.STRING := by
  constructor
  · decide
  · decide

/-- Claim C2, amended: when the scanner respects the constructor
preconditions of spec section 4.2 - the no-payload constructor only for a
category with requires_payload false, the with-payload constructor only
for a category with requires_payload true - and, additionally, supplies a
non-empty payload text on the with-payload path (the second
counterexample conjunct shows the empty text also breaks the invariant),
every token built through either constructor satisfies has_payload equal
to requires_payload of its category. -/
theorem claim_C2_ctor_invariant (file : String) (line : Int)
    (line_offset : Int) (length : Int) (c₁ c₂ : token_type) (v : String)
    (h₁ : token_needs_payload c₁ = false)
    (h₂ : token_needs_payload c₂ = true)
    (h₃ : v.isEmpty = false) :
    Token.exists (Token.mkNoPayload file line line_offset length c₁)
        = token_needs_payload c₁ ∧
      Token.exists (Token.mkWithPayload file line line_offset length c₂ v)
        = token_needs_payload c₂ := by
  constructor
  · rw [h₁]
    rfl
  · rw [h₂]
    show (!v.isEmpty) = true
    rw [h₃]
    rfl

/-- Claim C2, witness: the amended invariant instantiated at a COLON token
built without payload and a STRING token built with payload "x". -/
theorem claim_C2_ctor_invariant_witness :
    Token.exists (Token.mkNoPayload "f" 1 0 1 token_type.COLON)
        = token_needs_payload token_type.COLON ∧
      Token.exists (Token.mkWithPayload "f" 1 0 1 token_type.STRING "x")
        = token_needs_payload token_type.STRING :=
  claim_C2_ctor_invariant "f" 1 0 1 token_type.COLON token_type.STRING "x"
    (by decide) (by decide) (by decide)

/-- Claim C3, counterexample: constructing category STRING through the
no-payload path is not rejected - the construction succeeds and yields a
token of category STRING whose stored payload member is the empty string,
with has_payload reporting false. -/
theorem claim_C3_counterexample :
    (Token.mkNoPayload "f" 1 0 6 token_type.STRING).type = token_type.STRING ∧
      (Token.mkNoPayload "f" 1 0 6 token_type.STRING).value = "" ∧
      (Token.mkNoPayload "f" 1 0 6 token_type.STRING).exists = false := by
  refine ⟨rfl, rfl, ?_⟩
  decide

/-- Claim C3, amended: constructing a token with the payload-requiring
category STRING through the no-payload constructor is not rejected - per
the spec section 3 parenthetical the match is the callers responsibility -
and the construction silently succeeds with the empty string in the
payload member; the missing payload remains observable, since has_payload
reports false rather than presenting the empty string as a payload. -/
theorem claim_C3_no_reject (file : String) (line : Int) (line_offset : Int)
    (length : Int) :
    (Token.mkNoPayload file line line_offset length token_type.STRING).type
        = token_type.STRING ∧
      (Token.mkNoPayload file line line_offset length token_type.STRING).value
        = "" ∧
      (Token.mkNoPayload file line line_offset length token_type.STRING).exists
        = false := by
  exact ⟨rfl, rfl, rfl⟩

/-- Claim C4: is_endmarker is true if and only if the category is ENDLINE
or ENDFILE, and false for every other category. -/
theorem claim_C4_endmarker_iff :
    ∀ t : Token, t.is_endmarker = true ↔
      (t.type = token_type.ENDLINE ∨ t.type = token_type.ENDFILE) := by
  intro t
  cases t with
  | mk loc ty v =>
    cases ty <;> simp [Token.is_endmarker]

/-- Claim C5, counterexample: the structural category COLON does not
render its punctuation glyph in single quotes - token_type_str returns
the word "colon", not a quoted colon glyph. -/
theorem claim_C5_counterexample :
    token_type_str token_type.COLON = "colon" ∧
      ("colon" : String) ≠ squote ++ ":" ++ squote := by
  exact ⟨rfl, by decide⟩

/-- Claim C5, amended: among the structural categories, the eight bracket
categories LANGLE, RANGLE, LBRACE, RBRACE, LBRACKET, RBRACKET, LPAREN and
RPAREN render their glyph in single quotes, BANG and AT render their bare
glyph, and COLON, COMMA, DOT, ELLIPSIS render their lowercase spelled-out
names; every keyword category renders its lowercase spelling; INVALID
renders "invalid". -/
theorem claim_C5_labels :
    token_type_str token_type.LANGLE = squote ++ "<" ++ squote ∧
      token_type_str token_type.RANGLE = squote ++ ">" ++ squote ∧
      token_type_str token_type.LBRACE = squote ++ "\x7b" ++ squote ∧
      token_type_str token_type.RBRACE = squote ++ "\x7d" ++ squote ∧
      token_type_str token_type.LBRACKET = squote ++ "[" ++ squote ∧
      token_type_str token_type.RBRACKET = squote ++ "]" ++ squote ∧
      token_type_str token_type.LPAREN = squote ++ "(" ++ squote ∧
      token_type_str token_type.RPAREN = squote ++ ")" ++ squote ∧
      token_type_str token_type.BANG = "!" ∧
      token_type_str token_type.AT = "@" ∧
      token_type_str token_type.COLON = "colon" ∧
      token_type_str token_type.COMMA = "comma" ∧
      token_type_str token_type.DOT = "dot" ∧
      token_type_str token_type.ELLIPSIS = "ellipsis" ∧
      token_type_str token_type.AS = "as" ∧
      token_type_str token_type.FROM = "from" ∧
      token_type_str token_type.IMPORT = "import" ∧
      token_type_str token_type.PASS = "pass" ∧
      token_type_str token_type.INVALID = "invalid" := by
  repeat constructor

/-- Claim C6: token_type_str is total over all enumerated categories,
INVALID included, and returns a non-empty string on every one of them. -/
theorem claim_C6_nonempty :
    ∀ c : token_type, token_type_str c ≠ "" := by
  intro c
  cases c <;> decide

/-- Claim C7: every token of category ID and every token of category
STRING satisfies is_content - the content subset includes at minimum ID
and STRING. -/
theorem claim_C7_content :
    ∀ t : Token, (t.type = token_type.ID → t.is_content = true) ∧
      (t.type = token_type.STRING → t.is_content = true) := by
  intro t
  cases t with
  | mk loc ty v =>
    cases ty <;> simp [Token.is_content]

/-- Claim C7, witness: is_content holds on a concrete ID token and a
concrete STRING token. -/
theorem claim_C7_content_witness :
    (Token.mkWithPayload "f" 1 0 3 token_type.ID "foo").is_content = true ∧
      (Token.mkWithPayload "f" 1 0 3 token_type.STRING "bar").is_content = true :=
  ⟨(claim_C7_content (Token.mkWithPayload "f" 1 0 3 token_type.ID "foo")).1 rfl,
   (claim_C7_content (Token.mkWithPayload "f" 1 0 3 token_type.STRING "bar")).2 rfl⟩

/-- Claim C8: every query operation on a constructed token - exists,
is_endmarker, is_content, get and str, each modelled by its call
semantics returning the post-call receiver state - leaves the token (its
category, location and payload) unchanged. -/
theorem claim_C8_observers_pure :
    ∀ t : Token, (t.existsRun).2 = t ∧ (t.is_endmarkerRun).2 = t ∧
      (t.is_contentRun).2 = t ∧ (t.getRun).2 = t ∧ (t.strRun).2 = t := by
  intro t
  exact ⟨rfl, rfl, rfl, rfl, rfl⟩

/-- Claim C9: for every one of the 29 enumerated token categories the
switch of token_type_str matches a case, so the trailing fallback
"unhandled token_type" is never the result. -/
theorem claim_C9_no_fallback :
    ∀ c : token_type, (token_type_str_switch c).isSome = true ∧
      token_type_str c ≠ "unhandled token_type" := by
  intro c
  cases c <;> exact ⟨rfl, by decide⟩

/-- Claim C10: the zero-argument default constructor, absent from the
spec lifecycle, yields a token with no payload whatever category it
carries, and this path is not covered by the payload and category
matching of the two scanner-facing constructors: a default-constructed
token carrying the payload-requiring category STRING violates the
has_payload equals requires_payload correspondence. -/
theorem claim_C10_default_ctor :
    (∀ c : token_type, (Token.mkDefault c).exists = false) ∧
      (Token.mkDefault token_type.STRING).exists
        ≠ token_needs_payload token_type.STRING := by
  constructor
  · intro c
    rfl
  · decide

end nyan
